import Mathlib

/-!
Shallow embedding of `src/app/groq_stream.py` (class `ChatIA_Universal`) and
verification of the specification's claims about it.

The Python module builds LLM system prompts from user/database context and
performs CRUD on chat records.  Pure string/arithmetic code is translated to
Lean functions; the ORM session is modelled as explicit state (committed vs.
pending record sets); Python exceptions from the persistence layer are
modelled with `Except`/explicit failure flags; Python truthiness (`or`,
`if not x`) and `dict.get` semantics are embedded faithfully by dedicated
helpers.
-/

namespace Scholaria

/-! ## Python semantics helpers -/

/-- Python `x or default` for an optional string column: `None` and the empty
string are falsy, any other string is returned unchanged. -/
def pyOr (v : Option String) (dflt : String) : String :=
  match v with
  | none => dflt
  | some s => if s = "" then dflt else s

/-- Python `str(x)` as used in f-string interpolation of a value that may be
`None`: `str(None) = "None"`. -/
def pyShow : Option String → String
  | none => "None"
  | some s => s

/-- Python `if not x:` truthiness test on an optional string:
true for `None` and for the empty string. -/
def pyFalsyStr : Option String → Bool
  | none => true
  | some s => s == ""

/-- Python `if not x:` truthiness test on an optional integer column:
true for `None` and for `0`. -/
def pyFalsyNat : Option Nat → Bool
  | none => true
  | some n => n == 0

/-- Python `d.get(k, dflt)` on a dict whose values may be `None`
(`Option String`): returns the stored value (even when it is `None`) if the
key is present, and `dflt` only when the key is absent. -/
def pyDictGet (d : List (String × Option String)) (k : String) (dflt : String) :
    Option String :=
  match d.lookup k with
  | some v => v
  | none => some dflt

/-- Whitespace characters removed by Python `str.strip()` (ASCII subset). -/
def isPySpace (c : Char) : Bool :=
  c == ' ' || c == '\t' || c == '\n' || c == '\r' || c == '\x0b' || c == '\x0c'

/-- Python `s.strip()`: drop whitespace from both ends. -/
def pyStrip (s : String) : String :=
  ⟨((s.data.dropWhile isPySpace).reverse.dropWhile isPySpace).reverse⟩

/-- Python `s[:n]`: first `n` characters of a string. -/
def pySlice (s : String) (n : Nat) : String :=
  ⟨s.data.take n⟩

/-! ## Dates and times -/

/-- A Python `datetime.date` value (as produced by `date.today()` or stored in
`usuario.fecha_nacimiento`). -/
structure PyDate where
  year : Nat
  month : Nat
  day : Nat
deriving DecidableEq, Repr

/-- A Python `datetime.datetime` value truncated to the fields used by
`strftime('%d/%m/%Y %H:%M')`. -/
structure PyDateTime where
  year : Nat
  month : Nat
  day : Nat
  hour : Nat
  minute : Nat
deriving DecidableEq, Repr

/-- Zero-padded two-digit decimal rendering (strftime `%d`, `%m`, `%H`, `%M`). -/
def pad2 (n : Nat) : String :=
  if n < 10 then "0" ++ toString n else toString n

/-- Zero-padded four-digit decimal rendering (strftime `%Y`). -/
def pad4 (n : Nat) : String :=
  if n < 10 then "000" ++ toString n
  else if n < 100 then "00" ++ toString n
  else if n < 1000 then "0" ++ toString n
  else toString n

/-- Python `datetime.strftime('%d/%m/%Y %H:%M')`. -/
def strftime_dmY_HM (t : PyDateTime) : String :=
  pad2 t.day ++ "/" ++ pad2 t.month ++ "/" ++ pad4 t.year ++ " " ++
    pad2 t.hour ++ ":" ++ pad2 t.minute

/-! ## Data model

Modelled from the spec: the ORM schema (`app/models.py`) is not part of the
provided sources; entity shapes follow spec section 3 (User, Subject/Course,
UploadedFile, Chat, ChatMessage) and the columns accessed by
`groq_stream.py`. -/

/-- Modelled from the spec: user roles are Student | Teacher
(`RolUsuario.PROFESOR` is the teacher value tested by the code). -/
inductive RolUsuario
  | profesor
  | alumno
deriving DecidableEq, Repr

/-- Modelled from the spec: the user record, with the columns read by
`groq_stream.py`.  `apellido` is accessed through `getattr(u, 'apellido', '')`
so it is optional; `fecha_nacimiento` and `curso_id` are nullable columns. -/
structure Usuario where
  id : Nat
  apellido : Option String
  rol : RolUsuario
  fecha_nacimiento : Option PyDate
  curso_id : Option Nat
deriving DecidableEq, Repr

/-- Modelled from the spec: a course row (`curso.nombre` may be NULL). -/
structure CursoRec where
  nombre : Option String
deriving DecidableEq, Repr

/-- Modelled from the spec: a subject row together with its (possibly absent)
course relation, as navigated by `archivo.materia.curso`. -/
structure MateriaRec where
  nombre : Option String
  curso : Option CursoRec
deriving DecidableEq, Repr

/-- Modelled from the spec: an uploaded-file row (`ArchivoMateria`) with the
columns read by `_get_archivos_data`, including its (possibly absent)
`materia` relation. -/
structure ArchivoMateria where
  nombre_tema : Option String
  archivo_path : Option String
  notas_adicionales : Option String
  instrucciones_ensenanza : Option String
  texto_extraido : Option String
  materia : Option MateriaRec
deriving DecidableEq, Repr

/-- Institution fields as returned by `_get_institucion_data`. -/
structure InstitucionData where
  nombre : String
  valores : String
  metodologia : String
  configuracion : String
deriving DecidableEq, Repr

/-- Modelled from the spec: a (Materia, Curso) row pair as returned by the
subject queries feeding `_get_materias_profesor` / `_get_materias_alumno`. -/
structure MateriaRow where
  materia_nombre : String
  curso_nombre : String
  descripcion : Option String
deriving DecidableEq, Repr

/-- A processed subject entry (`{'nombre': ..., 'curso': ..., 'descripcion': ...}`). -/
structure MateriaInfo where
  nombre : String
  curso : String
  descripcion : String
deriving DecidableEq, Repr

/-- Modelled from the spec: a chat record (`ChatIA` row). -/
structure ChatIA where
  id : Nat
  nombre_chat : String
  usuario_id : Nat
  fecha_creacion : Nat
  fecha_ultimo_mensaje : Nat
deriving DecidableEq, Repr

/-- Modelled from the spec: a chat-message record (`MensajeChatIA` row);
only its owning `chat_id` matters to this module. -/
structure MensajeChatIA where
  id : Nat
  chat_id : Nat
deriving DecidableEq, Repr

/-- The persisted record set relevant to this module. -/
structure DB where
  chats : List ChatIA
  mensajes : List MensajeChatIA
deriving DecidableEq, Repr

/-! ## ORM session model

`db.session` holds pending (uncommitted) changes on top of the committed
record set: mutations act on `current`, `commit` publishes `current`, and
`rollback` discards `current` restoring `committed`. -/

/-- An open ORM session: the committed record set plus the pending state. -/
structure Session where
  committed : DB
  current : DB
deriving DecidableEq, Repr

/-- A fresh session over a committed record set. -/
def Session.fromDB (db : DB) : Session := ⟨db, db⟩

/-- `db.session.rollback()`: discard pending changes. -/
def Session.rollback (s : Session) : Session := ⟨s.committed, s.committed⟩

/-- `db.session.commit()`: publish pending changes. -/
def Session.commitDB (s : Session) : Session := ⟨s.current, s.current⟩

/-- `db.session.add(chat)`: stage a new chat row. -/
def Session.addChat (s : Session) (c : ChatIA) : Session :=
  ⟨s.committed, ⟨s.current.chats ++ [c], s.current.mensajes⟩⟩

/-- `MensajeChatIA.query.filter_by(chat_id=cid).delete()`: stage deletion of
every message of the chat. -/
def Session.deleteMensajes (s : Session) (cid : Nat) : Session :=
  ⟨s.committed, ⟨s.current.chats, s.current.mensajes.filter (fun m => !(m.chat_id == cid))⟩⟩

/-- Update the first element satisfying `p` (the ORM mutates the single object
returned by `.first()`). -/
def updateFirst (p : α → Bool) (f : α → α) : List α → List α
  | [] => []
  | x :: xs => if p x then f x :: xs else x :: updateFirst p f xs

/-- The ownership filter `filter_by(id=chat_id, usuario_id=usuario_id)`. -/
def chatMatch (cid uid : Nat) (c : ChatIA) : Bool :=
  c.id == cid && c.usuario_id == uid

/-- `db.session.delete(chat)`: stage removal of the chat object found by the
ownership query (the first matching row). -/
def Session.deleteChat (s : Session) (cid uid : Nat) : Session :=
  ⟨s.committed, ⟨s.current.chats.eraseP (chatMatch cid uid), s.current.mensajes⟩⟩

/-- The in-place attribute assignment `chat.nombre_chat = n`. -/
def renameUpd (n : String) (c : ChatIA) : ChatIA :=
  { c with nombre_chat := n }

/-- Stage `chat.nombre_chat = n` on the chat object found by the ownership
query. -/
def Session.setNombre (s : Session) (cid uid : Nat) (n : String) : Session :=
  ⟨s.committed,
   ⟨updateFirst (chatMatch cid uid) (renameUpd n) s.current.chats,
    s.current.mensajes⟩⟩

/-- `ChatIA.query.filter_by(id=chat_id, usuario_id=usuario_id).first()`. -/
def queryChatFirst (l : List ChatIA) (cid uid : Nat) : Option ChatIA :=
  l.find? (chatMatch cid uid)

/-! ## Chat CRUD (`crear_chat` / `eliminar_chat` / `renombrar_chat`)

Each operation takes explicit failure flags, one per persistence-layer call
site, modelling "the persistence layer raises an exception at that point";
the `except` handler rolls the session back and returns the negative/null
result.  The plain (non-failing) operations instantiate all flags to
`false`. -/

/-- Failure points of `crear_chat`: `db.session.add` and `db.session.commit`. -/
structure CrearFail where
  add : Bool
  commit : Bool
deriving DecidableEq, Repr

/-- `crear_chat(usuario_id, nombre_chat=None)` (lines 373-395).  `now` is
`datetime.now()`, `utcnow` the `datetime.utcnow()` timestamp, and `newId` the
primary key the database assigns to the inserted row. -/
def crear_chatF (db : DB) (usuario_id : Nat) (nombre_chat : Option String)
    (now : PyDateTime) (utcnow : Nat) (newId : Nat) (fl : CrearFail) :
    Option ChatIA × DB :=
  let nombre := if pyFalsyStr nombre_chat then
      "Chat " ++ strftime_dmY_HM now
    else nombre_chat.getD ""
  let chat : ChatIA := ⟨newId, nombre, usuario_id, utcnow, utcnow⟩
  let s := Session.fromDB db
  if fl.add then (none, (s.rollback).committed)
  else
    let s := s.addChat chat
    if fl.commit then (none, (s.rollback).committed)
    else
      let s := s.commitDB
      (some chat, s.committed)

/-- `crear_chat` with no persistence failure. -/
def crear_chat (db : DB) (usuario_id : Nat) (nombre_chat : Option String)
    (now : PyDateTime) (utcnow : Nat) (newId : Nat) : Option ChatIA × DB :=
  crear_chatF db usuario_id nombre_chat now utcnow newId ⟨false, false⟩

/-- Failure points of `eliminar_chat`: the ownership query, the bulk message
delete, `db.session.delete`, and `db.session.commit`. -/
structure ElimFail where
  query : Bool
  delMensajes : Bool
  delChat : Bool
  commit : Bool
deriving DecidableEq, Repr

/-- `eliminar_chat(chat_id, usuario_id)` (lines 397-422). -/
def eliminar_chatF (db : DB) (chat_id usuario_id : Nat) (fl : ElimFail) :
    Bool × DB :=
  let s := Session.fromDB db
  if fl.query then (false, (s.rollback).committed)
  else
    match queryChatFirst s.current.chats chat_id usuario_id with
    | none => (false, s.committed)
    | some _ =>
      if fl.delMensajes then (false, (s.rollback).committed)
      else
        let s := s.deleteMensajes chat_id
        if fl.delChat then (false, (s.rollback).committed)
        else
          let s := s.deleteChat chat_id usuario_id
          if fl.commit then (false, (s.rollback).committed)
          else
            let s := s.commitDB
            (true, s.committed)

/-- `eliminar_chat` with no persistence failure. -/
def eliminar_chat (db : DB) (chat_id usuario_id : Nat) : Bool × DB :=
  eliminar_chatF db chat_id usuario_id ⟨false, false, false, false⟩

/-- Failure points of `renombrar_chat`: the ownership query and
`db.session.commit`. -/
structure RenFail where
  query : Bool
  commit : Bool
deriving DecidableEq, Repr

/-- `renombrar_chat(chat_id, usuario_id, nuevo_nombre)` (lines 424-443):
stores `nuevo_nombre.strip()[:200]`. -/
def renombrar_chatF (db : DB) (chat_id usuario_id : Nat) (nuevo_nombre : String)
    (fl : RenFail) : Bool × DB :=
  let s := Session.fromDB db
  if fl.query then (false, (s.rollback).committed)
  else
    match queryChatFirst s.current.chats chat_id usuario_id with
    | none => (false, s.committed)
    | some _ =>
      let s := s.setNombre chat_id usuario_id (pySlice (pyStrip nuevo_nombre) 200)
      if fl.commit then (false, (s.rollback).committed)
      else
        let s := s.commitDB
        (true, s.committed)

/-- `renombrar_chat` with no persistence failure. -/
def renombrar_chat (db : DB) (chat_id usuario_id : Nat) (nuevo_nombre : String) :
    Bool × DB :=
  renombrar_chatF db chat_id usuario_id nuevo_nombre ⟨false, false⟩

/-! ## Age computation (`_calculate_age`, lines 291-304) -/

/-- Python tuple comparison `(hoy.month, hoy.day) < (nac.month, nac.day)`
(lexicographic). -/
def tupleLt (a b : Nat × Nat) : Bool :=
  a.1 < b.1 || (a.1 == b.1 && a.2 < b.2)

/-- `_calculate_age(usuario)`: calendar age clamped to `[0, 120]`, with
role-based defaults when the birth date is absent.  (The internal
`try/except` also yields the role default, which cannot trigger in the pure
model.) -/
def _calculate_age (u : Usuario) (hoy : PyDate) : Int :=
  match u.fecha_nacimiento with
  | some nac =>
    let edad : Int := (hoy.year : Int) - (nac.year : Int) -
      (if tupleLt (hoy.month, hoy.day) (nac.month, nac.day) then 1 else 0)
    max 0 (min edad 120)
  | none => if u.rol = RolUsuario.profesor then 30 else 16

/-! ## Institution data (`_get_institucion_data`, lines 306-326)

The fetch (`usuario.get_institucion()` plus attribute reads) is supplied as
an `Except` value: `.error` models an exception during the lookup (caught by
the function), `.ok none` models a user without an institution. -/

/-- The placeholder institution record (lines 321-326). -/
def institucionDefault : InstitucionData :=
  ⟨"No especificado", "No especificado", "No especificado", "Estándar"⟩

/-- `_get_institucion_data(usuario)`. -/
def _get_institucion_data (fetch : Except Unit (Option InstitucionData)) :
    InstitucionData :=
  match fetch with
  | .ok (some d) => d
  | .ok none => institucionDefault
  | .error _ => institucionDefault

/-! ## File data (`_get_archivos_data`, lines 107-209) -/

/-- Teacher-facing per-file entry (lines 135-139): only topic, subject and
filename. -/
structure ArchivoDataProfesor where
  tema : String
  materia : String
  nombre_archivo : String
deriving DecidableEq, Repr

/-- Student-facing per-file entry (lines 188-195). -/
structure ArchivoDataAlumno where
  tema : String
  notas : String
  instrucciones : String
  texto : String
  materia : String
  curso : String
deriving DecidableEq, Repr

/-- Filename extraction (lines 124-129): last `/`-separated component of
`archivo_path`, with `'Sin nombre'` for an absent/empty path. -/
def nombreArchivoOf (path : Option String) : String :=
  match path with
  | none => "Sin nombre"
  | some p => if p = "" then "Sin nombre" else (p.splitOn "/").getLastD p

/-- Subject name via the `archivo.materia` relation (lines 131-133 / 183-184). -/
def materiaNombreOf : Option MateriaRec → String
  | none => "Sin materia"
  | some m => pyOr m.nombre "Sin materia"

/-- Course name via the `archivo.materia.curso` relation (lines 185-186). -/
def cursoNombreOf : Option MateriaRec → String
  | none => "Sin curso"
  | some m =>
    match m.curso with
    | none => "Sin curso"
    | some cu => pyOr cu.nombre "Sin curso"

/-- Extracted-text processing for students (lines 169-178): empty/absent text
becomes a placeholder; text over 2000 characters is cut to its first 2000
characters plus `'...'`. -/
def texto_procesado (texto_extraido : Option String) : String :=
  match texto_extraido with
  | none => "Texto no disponible"
  | some t =>
    if t = "" then "Texto no disponible"
    else if 2000 < t.length then pySlice t 2000 ++ "..."
    else t

/-- One teacher-facing entry (lines 122-139). -/
def entryProfesor (a : ArchivoMateria) : ArchivoDataProfesor :=
  { tema := pyOr a.nombre_tema "Sin tema"
    materia := materiaNombreOf a.materia
    nombre_archivo := nombreArchivoOf a.archivo_path }

/-- One student-facing entry (lines 167-195). -/
def entryAlumno (a : ArchivoMateria) : ArchivoDataAlumno :=
  { tema := pyOr a.nombre_tema "Sin tema"
    notas := pyOr a.notas_adicionales "Sin notas adicionales"
    instrucciones := pyOr a.instrucciones_ensenanza "Sin instrucciones específicas"
    texto := texto_procesado a.texto_extraido
    materia := materiaNombreOf a.materia
    curso := cursoNombreOf a.materia }

/-- Teacher branch of `_get_archivos_data` (lines 111-149): the query result
(ordered, limited to 10 by the database) is supplied as an `Except`; a query
exception degrades to `[]`.  The per-file `try/except continue` cannot fire
in the pure model. -/
def _get_archivos_data_profesor (q : Except Unit (List ArchivoMateria)) :
    List ArchivoDataProfesor :=
  match q with
  | .error _ => []
  | .ok archivos => archivos.map entryProfesor

/-- Student branch of `_get_archivos_data` (lines 152-205): a missing or falsy
`curso_id` yields `[]` before any query; a query exception degrades to `[]`. -/
def _get_archivos_data_alumno (curso_id : Option Nat)
    (q : Except Unit (List ArchivoMateria)) : List ArchivoDataAlumno :=
  if pyFalsyNat curso_id then []
  else
    match q with
    | .error _ => []
    | .ok archivos => archivos.map entryAlumno

/-! ## Subject lists (`_get_materias_profesor` / `_get_materias_alumno`,
lines 328-370).  The raw (Materia, Curso) rows are supplied as an `Except`;
a query exception degrades to `[]`. -/

/-- Shared row-processing of both subject fetchers: raw names plus
`descripcion or 'Sin descripción'`. -/
def materiasFromRows (rows : List MateriaRow) : List MateriaInfo :=
  rows.map fun r =>
    ⟨r.materia_nombre, r.curso_nombre, pyOr r.descripcion "Sin descripción"⟩

/-- `_get_materias_profesor(profesor)`. -/
def _get_materias_profesor (q : Except Unit (List MateriaRow)) : List MateriaInfo :=
  match q with
  | .error _ => []
  | .ok rows => materiasFromRows rows

/-- `_get_materias_alumno(alumno)`. -/
def _get_materias_alumno (q : Except Unit (List MateriaRow)) : List MateriaInfo :=
  match q with
  | .error _ => []
  | .ok rows => materiasFromRows rows

/-! ## System prompt (`_get_env_vars` + `_build_system_prompt`,
lines 65-73 and 211-289) -/

/-- `_get_env_vars()` (lines 65-73): a dict holding the *raw* `os.getenv`
results — every key is present, possibly with value `None`. -/
def _get_env_vars (env : String → Option String) : List (String × Option String) :=
  [("NOMBRE", env "NOMBRE"),
   ("LIMITACIONES", env "LIMITACIONES"),
   ("ROL_IA_ALUMNOS", env "ROL_IA_ALUMNOS"),
   ("ROL_IA_PROFESORES", env "ROL_IA_PROFESORES"),
   ("EDAD_REGULACION", env "EDAD_REGULACION")]

/-- `usuario.rol.value if hasattr(usuario.rol, 'value') else str(usuario.rol)`.
Modelled from the spec: the enum's string values are not in the sources. -/
def rolValueStr : RolUsuario → String
  | .profesor => "profesor"
  | .alumno => "alumno"

/-- `enumerate(l, i)`. -/
def enumera : Nat → List α → List (Nat × α)
  | _, [] => []
  | i, x :: xs => (i, x) :: enumera (i + 1) xs

/-- Concatenation of the per-element line blocks of a loop body. -/
def concatMapL (f : α → List β) : List α → List β
  | [] => []
  | x :: xs => f x ++ concatMapL f xs

/-- Per-file prompt lines for a teacher (lines 262-269). -/
def profesorArchivoLines (idx : Nat) (a : ArchivoDataProfesor) : List String :=
  ["",
   "Archivo " ++ toString idx ++ ":",
   "- Tema: " ++ a.tema,
   "- Materia: " ++ a.materia,
   "- Nombre: " ++ a.nombre_archivo]

/-- Per-file prompt lines for a student (lines 271-280); note the extra
`"..."` appended after the (possibly already truncated) content. -/
def alumnoArchivoLines (idx : Nat) (a : ArchivoDataAlumno) : List String :=
  ["Archivos cargados por el profesor.",
   "Archivo " ++ toString idx ++ ":",
   "- Tema: " ++ a.tema,
   "- Materia: " ++ a.materia,
   "- Notas: " ++ a.notas,
   "- Instrucciones de enseñanza: " ++ a.instrucciones,
   "- Contenido: " ++ a.texto ++ "..."]

/-- One subject line (lines 249/253). -/
def materiaLine (m : MateriaInfo) : String :=
  "- " ++ m.nombre ++ " (" ++ m.curso ++ ")"

/-- The `prompt_parts` list of `_build_system_prompt` (lines 230-282), after
the user's `nombre` attribute has been read successfully. -/
def _build_system_prompt_parts (env : String → Option String) (u : Usuario)
    (nombre_usuario : String)
    (instF : Except Unit (Option InstitucionData))
    (archQ : Except Unit (List ArchivoMateria))
    (matQ : Except Unit (List MateriaRow))
    (hoy : PyDate) : List String :=
  let env_vars := _get_env_vars env
  let apellido_usuario := u.apellido.getD ""
  let rol_usuario := rolValueStr u.rol
  let edadS := toString (_calculate_age u hoy)
  let inst := _get_institucion_data instF
  let rol_ia := if u.rol = RolUsuario.profesor then
      pyDictGet env_vars "ROL_IA_PROFESORES" "un asistente educativo para profesores"
    else
      pyDictGet env_vars "ROL_IA_ALUMNOS" "un asistente educativo para estudiantes"
  let nombreS := pyShow (pyDictGet env_vars "NOMBRE" "un asistente educativo")
  let rolIaS := pyShow rol_ia
  let limS := pyShow (pyDictGet env_vars "LIMITACIONES" "Responde de manera educativa y apropiada")
  let edadRegS := pyShow (pyDictGet env_vars "EDAD_REGULACION" "13")
  let base :=
    ["Eres " ++ nombreS ++ ", " ++ rolIaS ++ ".",
     "Tus limitaciones son: " ++ limS,
     "Ahora mismo estás hablando con:",
     nombre_usuario ++ " " ++ apellido_usuario ++ ".",
     "Su rol es: " ++ rol_usuario ++ ".",
     "Su edad es: " ++ edadS ++ " años.",
     "Regulación de edad: " ++ edadRegS ++ " años.",
     "Información de la institución:",
     "Nombre: " ++ inst.nombre,
     "Valores institucionales: " ++ inst.valores,
     "Metodología pedagógica: " ++ inst.metodologia,
     "Configuración IA: " ++ inst.configuracion,
     ""]
  let materiasSection :=
    if u.rol = RolUsuario.profesor then
      "Materias que enseña:" :: (_get_materias_profesor matQ).map materiaLine
    else
      "Materias en las que está inscrito:" :: (_get_materias_alumno matQ).map materiaLine
  let archHeader :=
    ["",
     "Archivos y contenidos disponibles del " ++
       (if u.rol = RolUsuario.profesor then "profesor" else "estudiante") ++ ":"]
  let archSection :=
    if u.rol = RolUsuario.profesor then
      let archivos_data := _get_archivos_data_profesor archQ
      if archivos_data.isEmpty then ["No hay archivos disponibles actualmente."]
      else concatMapL (fun p => profesorArchivoLines p.1 p.2) (enumera 1 archivos_data)
    else
      let archivos_data := _get_archivos_data_alumno u.curso_id archQ
      if archivos_data.isEmpty then ["No hay archivos disponibles actualmente."]
      else concatMapL (fun p => alumnoArchivoLines p.1 p.2) (enumera 1 archivos_data)
  base ++ materiasSection ++ archHeader ++ archSection

/-- The body of the outer `try` of `_build_system_prompt` (lines 213-284).
`nombreAcc` is the ORM attribute access `usuario.nombre` (line 216), which
can raise (e.g. a detached instance or a lazy-load database error); every
other data-gathering step catches its own exceptions internally. -/
def _build_system_prompt_body (env : String → Option String) (u : Usuario)
    (nombreAcc : Except Unit String)
    (instF : Except Unit (Option InstitucionData))
    (archQ : Except Unit (List ArchivoMateria))
    (matQ : Except Unit (List MateriaRow))
    (hoy : PyDate) : Except Unit String := do
  let nombre_usuario ← nombreAcc
  pure (String.intercalate "\n"
    (_build_system_prompt_parts env u nombre_usuario instF archQ matQ hoy))

/-- The fallback prompt of the outer `except` handler (lines 286-289). -/
def fallback_prompt (rol : RolUsuario) : String :=
  let rol_fallback := if rol = RolUsuario.profesor then "profesor" else "estudiante"
  "Eres un asistente educativo especializado para " ++ rol_fallback ++
    "s. Ayuda de manera apropiada y educativa."

/-- `_build_system_prompt(usuario)` (lines 211-289). -/
def _build_system_prompt (env : String → Option String) (u : Usuario)
    (nombreAcc : Except Unit String)
    (instF : Except Unit (Option InstitucionData))
    (archQ : Except Unit (List ArchivoMateria))
    (matQ : Except Unit (List MateriaRow))
    (hoy : PyDate) : String :=
  match _build_system_prompt_body env u nombreAcc instF archQ matQ hoy with
  | .ok s => s
  | .error _ => fallback_prompt u.rol

/-! ## Groq client lifecycle (`__init__` / `_initialize_groq` /
`reinitialize` / `is_available`, lines 14-105) -/

/-- The facade's mutable state: the (possibly absent) client object —
represented by the API key it was built with — and the last initialization
error. -/
structure ChatState where
  client : Option String
  initialization_error : Option String
deriving DecidableEq, Repr

/-- The environment of one initialization attempt: the `GROQ_API_KEY` value
and whether client construction plus the live validation call succeed with a
non-empty choice list. -/
structure GroqEnv where
  apiKey : Option String
  validationOk : Bool
deriving DecidableEq, Repr

/-- `_initialize_groq()` (lines 19-63). -/
def _initialize_groq (st : ChatState) (e : GroqEnv) : Bool × ChatState :=
  let keyMissingMsg := "GROQ_API_KEY no encontrada en variables de entorno"
  if pyFalsyStr e.apiKey then
    (false, { st with initialization_error := some keyMissingMsg })
  else
    let api_key := pyStrip (e.apiKey.getD "")
    if api_key.length < 10 then
      (false, { st with initialization_error := some "GROQ_API_KEY parece inválida" })
    else
      if e.validationOk then
        (true, { client := some api_key, initialization_error := none })
      else
        (false, { client := none, initialization_error := some "Error inicializando Groq" })

/-- `__init__` (lines 14-17): start from a cleared state, then initialize. -/
def chatInit (e : GroqEnv) : ChatState :=
  (_initialize_groq ⟨none, none⟩ e).2

/-- `reinitialize()` (lines 100-105): clear both fields, then initialize. -/
def reinitializeClient (st : ChatState) (e : GroqEnv) : Bool × ChatState :=
  _initialize_groq { st with client := none, initialization_error := none } e

/-- `is_available()` (lines 87-89): `self.client is not None`. -/
def is_available (st : ChatState) : Bool :=
  st.client.isSome

/-- States reachable through construction followed by any sequence of
`reinitialize` calls — the only call sites of `_initialize_groq` in the
module. -/
inductive Reachable : ChatState → Prop
  | construct (e : GroqEnv) : Reachable (chatInit e)
  | reinit (st : ChatState) (e : GroqEnv) :
      Reachable st → Reachable (reinitializeClient st e).2

/-! ## Helper lemmas -/

/-- The ownership filter holds exactly on chats with the requested id and
owner. -/
theorem chatMatch_iff (cid uid : Nat) (c : ChatIA) :
    chatMatch cid uid c = true ↔ c.id = cid ∧ c.usuario_id = uid := by
  simp [chatMatch]

/-- Boolean and propositional disequality filters agree. -/
theorem bool_not_beq_eq_decide_ne (a b : Nat) :
    (!(a == b)) = decide (a ≠ b) := by
  by_cases h : a = b <;> simp [h]

/-- Erasing the chat found by the ownership query from a table with unique
ids removes exactly the rows with that id. -/
theorem eraseP_chatMatch_eq_filter (cid uid : Nat) (l : List ChatIA)
    (hnd : (l.map ChatIA.id).Nodup)
    (hex : ∃ c ∈ l, c.id = cid ∧ c.usuario_id = uid) :
    l.eraseP (chatMatch cid uid) = l.filter (fun c => decide (c.id ≠ cid)) := by
  induction l with
  | nil => simp at hex
  | cons a t ih =>
    simp only [List.map_cons, List.nodup_cons, List.mem_map] at hnd
    obtain ⟨ha, hndt⟩ := hnd
    by_cases hid : a.id = cid
    · have htail : ∀ c ∈ t, c.id ≠ cid := by
        intro c hc hcc
        exact ha ⟨c, hc, hcc.trans hid.symm⟩
      have huid : a.usuario_id = uid := by
        obtain ⟨c, hc, hc1, hc2⟩ := hex
        rcases List.mem_cons.mp hc with rfl | hct
        · exact hc2
        · exact absurd hc1 (htail c hct)
      have hpa : chatMatch cid uid a = true := (chatMatch_iff cid uid a).mpr ⟨hid, huid⟩
      rw [List.eraseP_cons_of_pos hpa, List.filter_cons, if_neg (by simp [hid])]
      exact (List.filter_eq_self.mpr (fun c hc => by simpa using htail c hc)).symm
    · have hpa : chatMatch cid uid a = false := by
        simp [chatMatch, hid]
      have hex2 : ∃ c ∈ t, c.id = cid ∧ c.usuario_id = uid := by
        obtain ⟨c, hc, hc1, hc2⟩ := hex
        rcases List.mem_cons.mp hc with rfl | hct
        · exact absurd hc1 hid
        · exact ⟨c, hct, hc1, hc2⟩
      rw [List.eraseP_cons_of_neg (by simp [hpa]), List.filter_cons,
        if_pos (by simp [hid]), ih hndt hex2]

/-- `find?` after updating the first match returns the updated element,
provided the update preserves the predicate. -/
theorem find?_updateFirst (p : α → Bool) (f : α → α)
    (hp : ∀ x, p (f x) = p x) (l : List α) :
    (updateFirst p f l).find? p = (l.find? p).map f := by
  induction l with
  | nil => simp [updateFirst]
  | cons a t ih =>
    by_cases h : p a = true
    · rw [updateFirst, if_pos h, List.find?_cons_of_pos _ ((hp a).trans h),
        List.find?_cons_of_pos _ h]
      rfl
    · have hb : p a = false := by simpa using h
      rw [updateFirst, if_neg (by simp [hb]), List.find?_cons_of_neg _ (by simp [hb]),
        List.find?_cons_of_neg _ (by simp [hb]), ih]

/-- Updating the first match twice with an idempotent, predicate-preserving
update equals updating once. -/
theorem updateFirst_updateFirst (p : α → Bool) (f : α → α)
    (hp : ∀ x, p (f x) = p x) (hf : ∀ x, f (f x) = f x) (l : List α) :
    updateFirst p f (updateFirst p f l) = updateFirst p f l := by
  induction l with
  | nil => rfl
  | cons a t ih =>
    by_cases h : p a = true
    · rw [updateFirst, if_pos h, updateFirst, if_pos ((hp a).trans h), hf a]
    · have hb : p a = false := by simpa using h
      rw [updateFirst, if_neg (by simp [hb]), updateFirst, if_neg (by simp [hb]), ih]

/-- Closed form of `eliminar_chat` without persistence failures. -/
theorem eliminar_chat_eq (db : DB) (cid uid : Nat) :
    eliminar_chat db cid uid =
      match queryChatFirst db.chats cid uid with
      | none => (false, db)
      | some _ =>
          (true, ⟨db.chats.eraseP (chatMatch cid uid),
                  db.mensajes.filter (fun m => !(m.chat_id == cid))⟩) := by
  cases h : queryChatFirst db.chats cid uid <;>
    simp [eliminar_chat, eliminar_chatF, Session.fromDB, Session.rollback,
      Session.commitDB, Session.deleteMensajes, Session.deleteChat, h]

/-- Closed form of `renombrar_chat` without persistence failures. -/
theorem renombrar_chat_eq (db : DB) (cid uid : Nat) (n : String) :
    renombrar_chat db cid uid n =
      match queryChatFirst db.chats cid uid with
      | none => (false, db)
      | some _ =>
          (true, ⟨updateFirst (chatMatch cid uid)
                    (renameUpd (pySlice (pyStrip n) 200)) db.chats,
                  db.mensajes⟩) := by
  cases h : queryChatFirst db.chats cid uid <;>
    simp [renombrar_chat, renombrar_chatF, Session.fromDB, Session.rollback,
      Session.commitDB, Session.setNombre, renameUpd, h]

/-- The rename update never changes the ownership key. -/
theorem chatMatch_renameUpd (cid uid : Nat) (n : String) (c : ChatIA) :
    chatMatch cid uid (renameUpd n c) = chatMatch cid uid c := rfl

/-- A truncated name has at most `n` characters. -/
theorem pySlice_length_le (s : String) (n : Nat) : (pySlice s n).length ≤ n := by
  show (s.data.take n).length ≤ n
  rw [List.length_take]
  exact min_le_left _ _

/-! ## Claim C1 -/

/-- C1: `eliminar_chat` returns false and performs no mutation when no chat
with that id is owned by that user; when such a chat exists (ids being
unique), it returns true and removes both the chat row and every message row
of that chat, leaving all other records untouched. -/
theorem C1_eliminar_chat (db : DB) (cid uid : Nat)
    (hnd : (db.chats.map ChatIA.id).Nodup) :
    ((∀ c ∈ db.chats, ¬(c.id = cid ∧ c.usuario_id = uid)) →
        eliminar_chat db cid uid = (false, db)) ∧
    ((∃ c ∈ db.chats, c.id = cid ∧ c.usuario_id = uid) →
        (eliminar_chat db cid uid).1 = true ∧
        (eliminar_chat db cid uid).2.chats
          = db.chats.filter (fun c => decide (c.id ≠ cid)) ∧
        (eliminar_chat db cid uid).2.mensajes
          = db.mensajes.filter (fun m => decide (m.chat_id ≠ cid))) := by
  constructor
  · intro hall
    have hq : queryChatFirst db.chats cid uid = none := by
      apply List.find?_eq_none.mpr
      intro c hc
      rw [chatMatch_iff]
      exact hall c hc
    rw [eliminar_chat_eq, hq]
  · intro hex
    obtain ⟨x, hx, hx1, hx2⟩ := hex
    have hpx : chatMatch cid uid x = true := (chatMatch_iff _ _ _).mpr ⟨hx1, hx2⟩
    cases hq : queryChatFirst db.chats cid uid with
    | none => exact absurd hpx (by simpa using List.find?_eq_none.mp hq x hx)
    | some c =>
      rw [eliminar_chat_eq, hq]
      refine ⟨rfl, ?_, ?_⟩
      · exact eraseP_chatMatch_eq_filter cid uid db.chats hnd ⟨x, hx, hx1, hx2⟩
      · exact List.filter_congr (fun m _ => bool_not_beq_eq_decide_ne m.chat_id cid)

/-- A concrete record set: two chats of different owners with one message
each. -/
def dbW : DB :=
  ⟨[⟨1, "a", 2, 0, 0⟩, ⟨5, "b", 3, 0, 0⟩], [⟨10, 1⟩, ⟨11, 5⟩]⟩

/-- C1 witness: deleting chat 1 as its owner (user 2) in `dbW` succeeds and
removes chat 1 and its messages. -/
theorem C1_eliminar_chat_witness :
    (eliminar_chat dbW 1 2).1 = true ∧
    (eliminar_chat dbW 1 2).2.chats = dbW.chats.filter (fun c => decide (c.id ≠ 1)) ∧
    (eliminar_chat dbW 1 2).2.mensajes
      = dbW.mensajes.filter (fun m => decide (m.chat_id ≠ 1)) :=
  (C1_eliminar_chat dbW 1 2 (by decide)).2 (by decide)

/-! ## Claim C3 -/

/-- C3: if the persistence layer raises at any call site during
`crear_chat` / `eliminar_chat` / `renombrar_chat`, the operation rolls back
(the committed record set is returned unchanged) and yields its
negative/null result. -/
theorem C3_crud_rollback (db : DB) (uid cid : Nat) (nombre : Option String)
    (now : PyDateTime) (utc newId : Nat) (nuevo : String)
    (fc : CrearFail) (fe : ElimFail) (fr : RenFail)
    (hc : fc.add = true ∨ fc.commit = true)
    (he : fe.query = true ∨ fe.delMensajes = true ∨ fe.delChat = true ∨ fe.commit = true)
    (hr : fr.query = true ∨ fr.commit = true) :
    crear_chatF db uid nombre now utc newId fc = (none, db) ∧
    eliminar_chatF db cid uid fe = (false, db) ∧
    renombrar_chatF db cid uid nuevo fr = (false, db) := by
  obtain ⟨ca, cc⟩ := fc
  obtain ⟨ea, eb, ec, ed⟩ := fe
  obtain ⟨ra, rc⟩ := fr
  refine ⟨?_, ?_, ?_⟩
  · cases ca <;> cases cc <;>
      simp_all [crear_chatF, Session.fromDB, Session.rollback, Session.commitDB,
        Session.addChat]
  · cases hq : queryChatFirst db.chats cid uid <;>
      cases ea <;> cases eb <;> cases ec <;> cases ed <;>
      simp_all [eliminar_chatF, Session.fromDB, Session.rollback, Session.commitDB,
        Session.deleteMensajes, Session.deleteChat]
  · cases hq : queryChatFirst db.chats cid uid <;>
      cases ra <;> cases rc <;>
      simp_all [renombrar_chatF, Session.fromDB, Session.rollback, Session.commitDB,
        Session.setNombre]

/-- C3 witness: commit failures in all three operations on `dbW` leave it
unchanged and return `None`/false. -/
theorem C3_crud_rollback_witness :
    crear_chatF dbW 2 none ⟨2026, 10, 12, 0, 0⟩ 0 9 ⟨false, true⟩ = (none, dbW) ∧
    eliminar_chatF dbW 1 2 ⟨false, false, false, true⟩ = (false, dbW) ∧
    renombrar_chatF dbW 1 2 "n" ⟨false, true⟩ = (false, dbW) :=
  C3_crud_rollback dbW 2 1 none ⟨2026, 10, 12, 0, 0⟩ 0 9 "n"
    ⟨false, true⟩ ⟨false, false, false, true⟩ ⟨false, true⟩
    (Or.inr rfl) (Or.inr (Or.inr (Or.inr rfl))) (Or.inr rfl)

/-! ## Claim C8 -/

/-- A one-chat record set for the rename counterexample. -/
def db8 : DB := ⟨[⟨1, "x", 2, 0, 0⟩], []⟩

/-- A 251-character name: `"b"` followed by 250 spaces. -/
def nuevo8 : String := "b" ++ ⟨List.replicate 250 ' '⟩

set_option maxRecDepth 40000 in
/-- C8 counterexample: for the 251-character name `nuevo8`, the stored name is
`"b"` (strip happens before truncation), not the first 200 characters of the
name as the claim states. -/
theorem C8_counterexample :
    ((queryChatFirst (renombrar_chat db8 1 2 nuevo8).2.chats 1 2).map ChatIA.nombre_chat
        = some "b") ∧
    200 < nuevo8.length ∧ pySlice nuevo8 200 ≠ "b" := by
  decide

/-- C8 (amended): `renombrar_chat` stores the whitespace-stripped new name
truncated to its first 200 characters (hence at most 200 characters), and
renaming twice with the same name yields the same record set as renaming
once. -/
theorem C8_renombrar_amended (db : DB) (cid uid : Nat) (n : String) :
    ((queryChatFirst db.chats cid uid).isSome = true →
        (queryChatFirst (renombrar_chat db cid uid n).2.chats cid uid).map
            ChatIA.nombre_chat
          = some (pySlice (pyStrip n) 200)) ∧
    (pySlice (pyStrip n) 200).length ≤ 200 ∧
    (renombrar_chat (renombrar_chat db cid uid n).2 cid uid n).2
      = (renombrar_chat db cid uid n).2 := by
  refine ⟨?_, pySlice_length_le _ _, ?_⟩
  · intro hs
    cases hq : queryChatFirst db.chats cid uid with
    | none => rw [hq] at hs; exact absurd hs (by simp)
    | some c =>
      rw [renombrar_chat_eq, hq]
      simp only [queryChatFirst] at hq ⊢
      rw [find?_updateFirst (chatMatch cid uid) (renameUpd (pySlice (pyStrip n) 200))
        (fun x => rfl) db.chats, hq]
      rfl
  · cases hq : queryChatFirst db.chats cid uid with
    | none => simp [renombrar_chat_eq, hq]
    | some c =>
      have hq2 : queryChatFirst
          (updateFirst (chatMatch cid uid) (renameUpd (pySlice (pyStrip n) 200)) db.chats)
          cid uid = some (renameUpd (pySlice (pyStrip n) 200) c) := by
        simp only [queryChatFirst] at hq ⊢
        rw [find?_updateFirst (chatMatch cid uid) (renameUpd (pySlice (pyStrip n) 200))
          (fun x => rfl) db.chats, hq]
        rfl
      simp [renombrar_chat_eq, hq, hq2,
        updateFirst_updateFirst (chatMatch cid uid) (renameUpd (pySlice (pyStrip n) 200))
          (fun x => rfl) (fun x => rfl) db.chats]

/-- C8 witness: renaming chat 1 of user 2 in `db8` to a padded name stores
the stripped, truncated name. -/
theorem C8_renombrar_amended_witness :
    (queryChatFirst (renombrar_chat db8 1 2 "  nuevo nombre  ").2.chats 1 2).map
        ChatIA.nombre_chat
      = some (pySlice (pyStrip "  nuevo nombre  ") 200) :=
  (C8_renombrar_amended db8 1 2 "  nuevo nombre  ").1 (by decide)

/-! ## Claim C9 -/

/-- C9 (amended): with a missing name — or an explicit empty-string name,
which Python's truthiness treats the same way — `crear_chat` stores the
timestamped default name; any non-empty explicit name is stored verbatim.
Either way the new row (with both timestamps set to now) is appended. -/
theorem C9_crear_amended (db : DB) (uid : Nat) (nombre : Option String)
    (now : PyDateTime) (utc newId : Nat) :
    ((nombre = none ∨ nombre = some "") →
        crear_chat db uid nombre now utc newId =
          (some ⟨newId, "Chat " ++ strftime_dmY_HM now, uid, utc, utc⟩,
           ⟨db.chats ++ [⟨newId, "Chat " ++ strftime_dmY_HM now, uid, utc, utc⟩],
            db.mensajes⟩)) ∧
    (∀ s, nombre = some s → s ≠ "" →
        crear_chat db uid nombre now utc newId =
          (some ⟨newId, s, uid, utc, utc⟩,
           ⟨db.chats ++ [⟨newId, s, uid, utc, utc⟩], db.mensajes⟩)) := by
  constructor
  · rintro (rfl | rfl) <;>
      simp [crear_chat, crear_chatF, pyFalsyStr, Session.fromDB, Session.commitDB,
        Session.addChat]
  · rintro s rfl hs
    simp [crear_chat, crear_chatF, pyFalsyStr, hs, Session.fromDB, Session.commitDB,
      Session.addChat]

/-- An empty record set and a fixed clock for the creation claims. -/
def db9 : DB := ⟨[], []⟩

/-- A fixed `datetime.now()` for the creation claims. -/
def now9 : PyDateTime := ⟨2026, 10, 12, 14, 30⟩

/-- C9 counterexample: called with the explicit empty-string name, the stored
name is the timestamped default, not the empty string verbatim. -/
theorem C9_counterexample :
    (crear_chat db9 7 (some "") now9 0 1).2.chats.map ChatIA.nombre_chat
        = ["Chat 12/10/2026 14:30"] ∧
    ¬(crear_chat db9 7 (some "") now9 0 1).2.chats.map ChatIA.nombre_chat = [""] := by
  decide

/-- C9 witness: a non-empty explicit name is stored verbatim. -/
theorem C9_crear_amended_witness :
    crear_chat db9 7 (some "Mi chat") now9 5 1 =
      (some ⟨1, "Mi chat", 7, 5, 5⟩, ⟨[⟨1, "Mi chat", 7, 5, 5⟩], []⟩) :=
  (C9_crear_amended db9 7 (some "Mi chat") now9 5 1).2 "Mi chat" rfl (by decide)

/-! ## Claim C7 -/

/-- Stated from the spec's words, for comparison with `_calculate_age`:
calendar-correct age is current year minus birth year, minus one if the
birth month/day has not yet occurred this year. -/
def specCalendarAge (hoy nac : PyDate) : Int :=
  (hoy.year : Int) - (nac.year : Int) -
    (if hoy.month < nac.month ∨ (hoy.month = nac.month ∧ hoy.day < nac.day)
     then 1 else 0)

/-- C7: `_calculate_age` returns 30 for teachers and 16 otherwise when the
birth date is absent, and otherwise returns the calendar-correct age clamped
to `[0, 120]`. -/
theorem C7_calculate_age (u : Usuario) (hoy : PyDate) :
    (u.fecha_nacimiento = none →
        _calculate_age u hoy = (if u.rol = RolUsuario.profesor then 30 else 16)) ∧
    (∀ nac, u.fecha_nacimiento = some nac →
        _calculate_age u hoy = max 0 (min (specCalendarAge hoy nac) 120) ∧
        0 ≤ _calculate_age u hoy ∧ _calculate_age u hoy ≤ 120) := by
  constructor
  · intro h
    simp [_calculate_age, h]
  · intro nac h
    have htup : tupleLt (hoy.month, hoy.day) (nac.month, nac.day) = true ↔
        (hoy.month < nac.month ∨ (hoy.month = nac.month ∧ hoy.day < nac.day)) := by
      simp [tupleLt]
    refine ⟨?_, ?_, ?_⟩
    · simp only [_calculate_age, h, specCalendarAge]
      by_cases hb : hoy.month < nac.month ∨ (hoy.month = nac.month ∧ hoy.day < nac.day)
      · rw [if_pos (htup.mpr hb), if_pos hb]
      · rw [if_neg (fun hx => hb (htup.mp hx)), if_neg hb]
    · simp only [_calculate_age, h]
      exact le_max_left 0 _
    · simp only [_calculate_age, h]
      exact max_le (by norm_num) (min_le_right _ _)

/-- A student born 2010-12-01 (birthday not yet reached on 2026-10-12). -/
def u7 : Usuario := ⟨4, some "P", RolUsuario.alumno, some ⟨2010, 12, 1⟩, none⟩

/-- C7 witness: the age of `u7` on 2026-10-12 is the clamped calendar age. -/
theorem C7_calculate_age_witness :
    _calculate_age u7 ⟨2026, 10, 12⟩
        = max 0 (min (specCalendarAge ⟨2026, 10, 12⟩ ⟨2010, 12, 1⟩) 120) ∧
    0 ≤ _calculate_age u7 ⟨2026, 10, 12⟩ ∧ _calculate_age u7 ⟨2026, 10, 12⟩ ≤ 120 :=
  (C7_calculate_age u7 ⟨2026, 10, 12⟩).2 ⟨2010, 12, 1⟩ rfl

/-! ## Claim C6 -/

/-- A Python `x or dflt` with a non-empty default never yields the empty
string. -/
theorem pyOr_ne_empty (v : Option String) (d : String) (hd : d ≠ "") :
    pyOr v d ≠ "" := by
  cases v with
  | none => simpa [pyOr] using hd
  | some s => by_cases hs : s = "" <;> simp [pyOr, hs, hd]

/-- The processed extracted text is never the empty string. -/
theorem texto_procesado_ne_empty (v : Option String) : texto_procesado v ≠ "" := by
  cases v with
  | none => simp [texto_procesado]
  | some t =>
    by_cases h0 : t = ""
    · simp [texto_procesado, h0]
    · by_cases hl : 2000 < t.length
      · simp only [texto_procesado, if_neg h0, if_pos hl]
        intro he
        have hlen := congrArg String.length he
        rw [String.length_append, show ("..." : String).length = 3 from rfl] at hlen
        simp at hlen
      · simp only [texto_procesado, if_neg h0, if_neg hl]
        exact h0

/-- C6: the teacher-facing file entry depends only on topic, path and subject
relation (never on extracted text, notes or teaching instructions), while the
student-facing entry always carries non-empty notes, teaching instructions
and extracted text, substituting placeholders when the fields are absent. -/
theorem C6_archivos_asymmetry (a b : ArchivoMateria)
    (h1 : a.nombre_tema = b.nombre_tema)
    (h2 : a.archivo_path = b.archivo_path)
    (h3 : a.materia = b.materia) :
    entryProfesor a = entryProfesor b ∧
    ((entryAlumno a).notas ≠ "" ∧ (entryAlumno a).instrucciones ≠ "" ∧
      (entryAlumno a).texto ≠ "") ∧
    (a.notas_adicionales = none → (entryAlumno a).notas = "Sin notas adicionales") ∧
    (a.instrucciones_ensenanza = none →
        (entryAlumno a).instrucciones = "Sin instrucciones específicas") ∧
    (a.texto_extraido = none → (entryAlumno a).texto = "Texto no disponible") := by
  refine ⟨?_, ⟨?_, ?_, ?_⟩, ?_, ?_, ?_⟩
  · simp [entryProfesor, h1, h2, h3]
  · exact pyOr_ne_empty _ _ (by decide)
  · exact pyOr_ne_empty _ _ (by decide)
  · exact texto_procesado_ne_empty _
  · intro h; simp [entryAlumno, pyOr, h]
  · intro h; simp [entryAlumno, pyOr, h]
  · intro h; simp [entryAlumno, texto_procesado, h]

/-- A file with all content fields present. -/
def arch6a : ArchivoMateria :=
  ⟨some "Tema", some "d/f.pdf", some "nota", some "instr", some "texto", none⟩

/-- The same file with every content field absent. -/
def arch6b : ArchivoMateria :=
  ⟨some "Tema", some "d/f.pdf", none, none, none, none⟩

/-- C6 witness: the teacher entry cannot distinguish `arch6a` from `arch6b`,
and the student entry of `arch6b` carries the placeholders. -/
theorem C6_archivos_asymmetry_witness :
    entryProfesor arch6a = entryProfesor arch6b ∧
    (entryAlumno arch6b).notas = "Sin notas adicionales" ∧
    (entryAlumno arch6b).texto = "Texto no disponible" :=
  ⟨(C6_archivos_asymmetry arch6a arch6b rfl rfl rfl).1,
   (C6_archivos_asymmetry arch6b arch6b rfl rfl rfl).2.2.1 rfl,
   (C6_archivos_asymmetry arch6b arch6b rfl rfl rfl).2.2.2.2 rfl⟩

/-! ## Claim C5 -/

/-- C5 (amended): the processed student text equals the first 2000 characters
plus `'...'` for texts over 2000 characters, and the raw text for non-empty
texts of at most 2000 characters; the student-facing prompt line then appends
one more `"..."` after the processed text. -/
theorem C5_truncation_amended (t : String) (idx : Nat) (a : ArchivoMateria) :
    (2000 < t.length →
        texto_procesado (some t) = pySlice t 2000 ++ "..." ∧
        (pySlice t 2000).length = 2000) ∧
    (t ≠ "" → t.length ≤ 2000 → texto_procesado (some t) = t) ∧
    ("- Contenido: " ++ (entryAlumno a).texto ++ "...")
      ∈ alumnoArchivoLines idx (entryAlumno a) := by
  refine ⟨?_, ?_, ?_⟩
  · intro hl
    refine ⟨?_, ?_⟩
    · have h0 : ¬t = "" := by
        intro h
        rw [h] at hl
        simp [String.length] at hl
      simp only [texto_procesado, if_neg h0, if_pos hl]
    · show (t.data.take 2000).length = 2000
      rw [List.length_take]
      exact min_eq_left (le_of_lt hl)
  · intro h0 hle
    simp only [texto_procesado, if_neg h0, if_neg (not_lt.mpr hle)]
  · simp [alumnoArchivoLines]

set_option maxRecDepth 40000 in
/-- C5 witness: a 2500-character text is processed to its first 2000
characters plus the ellipsis marker. -/
theorem C5_truncation_amended_witness :
    texto_procesado (some (⟨List.replicate 2500 'a'⟩ : String))
        = pySlice ⟨List.replicate 2500 'a'⟩ 2000 ++ "..." ∧
    (pySlice (⟨List.replicate 2500 'a'⟩ : String) 2000).length = 2000 :=
  (C5_truncation_amended ⟨List.replicate 2500 'a'⟩ 1 arch6a).1
    (by show 2000 < (List.replicate 2500 'a').length; simp)

/-- The five prompt-related environment variables are all absent. -/
def envNone : String → Option String := fun _ => none

/-- A student with a course but no birth date. -/
def u5 : Usuario := ⟨3, some "", RolUsuario.alumno, none, some 9⟩

/-- A file whose extracted text is the 4-character string `"hola"`. -/
def arch5 : ArchivoMateria :=
  ⟨some "Tema1", some "a/b.pdf", none, none, some "hola", none⟩

/-- The student prompt lines for `u5` with the single file `arch5`. -/
def parts5 : List String :=
  _build_system_prompt_parts envNone u5 "Ana" (.ok none) (.ok [arch5]) (.ok [])
    ⟨2026, 10, 12⟩

set_option maxRecDepth 40000 in
/-- C5 counterexample: the 4-character extracted text `"hola"` appears in the
student prompt block as `"- Contenido: hola..."` — with an added ellipsis
marker — and not unmodified as `"- Contenido: hola"`, contrary to the claim
that texts of at most 2000 characters appear with no added marker. -/
theorem C5_counterexample :
    "- Contenido: hola..." ∈ parts5 ∧ "- Contenido: hola" ∉ parts5 := by
  decide

/-! ## Claim C2 -/

/-- The fallback prompt contains the role-appropriate noun. -/
theorem fallback_contains_noun (rol : RolUsuario) :
    (if rol = RolUsuario.profesor then "profesor" else "estudiante").data
      <:+: (fallback_prompt rol).data := by
  cases rol <;> decide

/-- C2: `_build_system_prompt` never raises — it returns the body's string
when the guarded data gathering succeeds, returns the fallback prompt when
the body fails, and the fallback prompt contains the role-appropriate noun
(`"profesor"` for teachers, `"estudiante"` otherwise). -/
theorem C2_build_prompt (env : String → Option String) (u : Usuario)
    (nombreAcc : Except Unit String)
    (instF : Except Unit (Option InstitucionData))
    (archQ : Except Unit (List ArchivoMateria))
    (matQ : Except Unit (List MateriaRow))
    (hoy : PyDate) :
    (∀ er, _build_system_prompt_body env u nombreAcc instF archQ matQ hoy = .error er →
        _build_system_prompt env u nombreAcc instF archQ matQ hoy
          = fallback_prompt u.rol) ∧
    (∀ s, _build_system_prompt_body env u nombreAcc instF archQ matQ hoy = .ok s →
        _build_system_prompt env u nombreAcc instF archQ matQ hoy = s) ∧
    ((if u.rol = RolUsuario.profesor then "profesor" else "estudiante").data
        <:+: (fallback_prompt u.rol).data) := by
  refine ⟨?_, ?_, ?_⟩
  · intro er h
    simp [_build_system_prompt, h]
  · intro s h
    simp [_build_system_prompt, h]
  · exact fallback_contains_noun u.rol

/-- C2 witness: when the `usuario.nombre` attribute access fails, the student
fallback prompt is returned. -/
theorem C2_build_prompt_witness :
    _build_system_prompt envNone u5 (.error ()) (.ok none) (.ok []) (.ok [])
        ⟨2026, 10, 12⟩
      = fallback_prompt RolUsuario.alumno :=
  (C2_build_prompt envNone u5 (.error ()) (.ok none) (.ok []) (.ok [])
    ⟨2026, 10, 12⟩).1 () rfl

/-! ## Claim C4 -/

/-- The prompt built for student `u5` with every environment variable
absent. -/
def prompt4 : String :=
  _build_system_prompt envNone u5 (.ok "Ana") (.ok none) (.ok []) (.ok [])
    ⟨2026, 10, 12⟩

/-- A teacher, for the teacher-persona variable. -/
def u4p : Usuario := ⟨2, some "", RolUsuario.profesor, none, none⟩

/-- The prompt built for teacher `u4p` with every environment variable
absent. -/
def prompt4p : String :=
  _build_system_prompt envNone u4p (.ok "Luis") (.ok none) (.ok []) (.ok [])
    ⟨2026, 10, 12⟩

set_option maxRecDepth 100000 in
/-- C4 (code bug): with all five prompt environment variables absent, the
assembled prompt contains Python's `"None"` marker in place of every builtin
default (assistant name, persona for both roles, limitations, minimum-age
policy), and none of the builtin default texts appear: the defaults passed to
`dict.get` are unreachable because `_get_env_vars` stores the keys with value
`None`. -/
theorem C4_env_defaults_unreachable :
    "Eres None, None.".data <+: prompt4.data ∧
    "Eres None, None.".data <+: prompt4p.data ∧
    "Tus limitaciones son: None".data <:+: prompt4.data ∧
    "Regulación de edad: None años.".data <:+: prompt4.data ∧
    ¬"un asistente educativo".data <:+: prompt4.data ∧
    ¬"un asistente educativo".data <:+: prompt4p.data ∧
    ¬"Responde de manera educativa y apropiada".data <:+: prompt4.data ∧
    ¬"13".data <:+: prompt4.data := by
  decide

/-! ## Claim C10 -/

/-- Behaviour of one `_initialize_groq` run from a cleared state (the only
way it is invoked: by `__init__` and by `reinitialize`). -/
theorem initialize_from_cleared_spec (e : GroqEnv) :
    is_available (_initialize_groq ⟨none, none⟩ e).2
        = (_initialize_groq ⟨none, none⟩ e).2.client.isSome ∧
    ((_initialize_groq ⟨none, none⟩ e).2.client.isSome = true →
        (_initialize_groq ⟨none, none⟩ e).2.initialization_error = none ∧
        e.validationOk = true) ∧
    (pyFalsyStr e.apiKey = true →
        is_available (_initialize_groq ⟨none, none⟩ e).2 = false) ∧
    (is_available (_initialize_groq ⟨none, none⟩ e).2 = true ↔
        (pyFalsyStr e.apiKey = false ∧ 10 ≤ (pyStrip (e.apiKey.getD "")).length ∧
         e.validationOk = true)) := by
  refine ⟨rfl, ?_, ?_, ?_⟩ <;>
  · by_cases hk : pyFalsyStr e.apiKey = true <;>
    by_cases hlen : (pyStrip (e.apiKey.getD "")).length < 10 <;>
    cases hv : e.validationOk <;>
    simp_all [_initialize_groq, is_available] <;>
    simp [Nat.not_lt.mpr hlen]

/-- C10: in every state reachable through `__init__` and `reinitialize` (the
only call sites of `_initialize_groq`), `is_available()` equals
`client is not None`; a non-`None` client implies `initialization_error` is
`None` and that the last initialization's validation call succeeded; after
the last (re)initialization, availability is false whenever the API key was
absent, and true exactly when the key was present, survived the length check
after stripping, and the validation call succeeded. -/
theorem C10_is_available (st : ChatState) (h : Reachable st) :
    is_available st = st.client.isSome ∧
    (st.client.isSome = true → st.initialization_error = none) ∧
    (∃ e : GroqEnv, st = (_initialize_groq ⟨none, none⟩ e).2 ∧
        (st.client.isSome = true → e.validationOk = true) ∧
        (pyFalsyStr e.apiKey = true → is_available st = false) ∧
        (is_available st = true ↔
          (pyFalsyStr e.apiKey = false ∧ 10 ≤ (pyStrip (e.apiKey.getD "")).length ∧
           e.validationOk = true))) := by
  induction h with
  | construct e =>
    obtain ⟨h1, h2, h3, h4⟩ := initialize_from_cleared_spec e
    exact ⟨h1, fun hc => (h2 hc).1, e, rfl, fun hc => (h2 hc).2, h3, h4⟩
  | reinit st0 e _ _ =>
    obtain ⟨h1, h2, h3, h4⟩ := initialize_from_cleared_spec e
    exact ⟨h1, fun hc => (h2 hc).1, e, rfl, fun hc => (h2 hc).2, h3, h4⟩

/-- C10 witness: the freshly constructed facade with no API key reports
availability equal to client presence (both false). -/
theorem C10_is_available_witness :
    is_available (chatInit ⟨none, true⟩) = (chatInit ⟨none, true⟩).client.isSome :=
  (C10_is_available (chatInit ⟨none, true⟩) (Reachable.construct ⟨none, true⟩)).1

end Scholaria
